import Mathlib

/-!
Verification of the real-time speech-to-text streaming core
(`core/voice` of the ML101 repository) against its specification.

The Python code is shallowly embedded: byte strings become lists of
naturals, numpy float computations are modelled in exact rational
arithmetic, wall-clock timestamps (`time.time()` / `datetime.now()`)
become rational parameters, and every external engine interaction
(Vosk/Whisper/Google calls, JSON parsing of their output) is an
explicit oracle value that either returns a result or raises
(`Except`).  Python exceptions are `Except.error`; `try/except`
blocks are matches on those values.
-/

namespace ML101

/-- Python `int()` applied to an exact rational value: truncation toward
zero (`numpy.astype` of a float to an integer type truncates the same way). -/
def pyInt (q : ℚ) : ℤ := if 0 ≤ q then ⌊q⌋ else ⌈q⌉

/-- ASCII whitespace stripped by Python `str.strip()`. -/
def isPySpace (c : Char) : Bool :=
  c = ' ' || c = '\t' || c = '\n' || c = '\r' || c = '\x0b' || c = '\x0c'

/-- Python `str.strip()`: removes leading and trailing whitespace. -/
def pyStrip (s : String) : String :=
  String.mk (((s.data.dropWhile isPySpace).reverse.dropWhile isPySpace).reverse)

/-- Python `str.lower()`: lowercases character by character. -/
def pyLower (s : String) : String := String.mk (s.data.map Char.toLower)

/-- Python slice `l[:n]` of a byte buffer for an integer bound
(a negative bound counts from the end, clamped at zero). -/
def pySliceTo (l : List ℕ) (n : ℤ) : List ℕ :=
  if 0 ≤ n then l.take n.toNat else l.take (l.length - (-n).toNat)

theorem pyInt_intCast (n : ℤ) : pyInt (n : ℚ) = n := by
  unfold pyInt
  split <;> simp

theorem pyInt_nonneg_eq_floor (q : ℚ) (h : 0 ≤ q) : pyInt q = ⌊q⌋ := by
  unfold pyInt
  simp [h]

theorem pyInt_nonneg (q : ℚ) (h : 0 ≤ q) : 0 ≤ pyInt q := by
  rw [pyInt_nonneg_eq_floor q h]
  exact Int.floor_nonneg.mpr h

theorem pyInt_mono {p q : ℚ} (h0 : 0 ≤ p) (h : p ≤ q) : pyInt p ≤ pyInt q := by
  rw [pyInt_nonneg_eq_floor p h0, pyInt_nonneg_eq_floor q (le_trans h0 h)]
  exact Int.floor_le_floor h

/-! ## Audio utilities (`core/voice/utils/audio_processing.py`)

One int16 sample is an integer in [-32768, 32767]; one float32 sample is
modelled as an exact rational.  `int16_to_float32` divides each sample by
32767 (audio_processing.py line 60); `float32_to_int16` clips to [-1, 1],
scales by 32767 and truncates to int16 (lines 31-32). -/

/-- One sample of `int16_to_float32`: `int_array / 32767`. -/
def int16ToFloat32Sample (i : ℤ) : ℚ := (i : ℚ) / 32767

/-- One sample of `float32_to_int16`:
`np.clip(x, -1.0, 1.0) * 32767` then `astype(np.int16)` (truncation). -/
def float32ToInt16Sample (x : ℚ) : ℤ := pyInt (max (-1) (min 1 x) * 32767)

/-- `int16_to_float32` on a decoded sample buffer. -/
def int16_to_float32 (l : List ℤ) : List ℚ := l.map int16ToFloat32Sample

/-- `float32_to_int16` on a decoded sample buffer. -/
def float32_to_int16 (l : List ℚ) : List ℤ := l.map float32ToInt16Sample

theorem roundtripSample_eq (i : ℤ) (h1 : -32768 ≤ i) (h2 : i ≤ 32767) :
    float32ToInt16Sample (int16ToFloat32Sample i) =
      if i = -32768 then -32767 else i := by
  by_cases hc : i = -32768
  · subst hc
    rw [if_pos rfl]
    unfold float32ToInt16Sample int16ToFloat32Sample
    have hx : ((-32768 : ℤ) : ℚ) / 32767 ≤ -1 := by norm_num
    rw [min_eq_right (le_trans hx (by norm_num)), max_eq_left hx]
    have hval : (-1 : ℚ) * 32767 = ((-32767 : ℤ) : ℚ) := by norm_num
    rw [hval, pyInt_intCast]
  · rw [if_neg hc]
    have h1' : -32767 ≤ i := by omega
    have hpos : (0 : ℚ) < 32767 := by norm_num
    have hle : (i : ℚ) / 32767 ≤ 1 := by
      rw [div_le_one hpos]
      exact_mod_cast h2
    have hge : (-1 : ℚ) ≤ (i : ℚ) / 32767 := by
      rw [le_div_iff₀ hpos]
      exact_mod_cast h1'
    unfold float32ToInt16Sample int16ToFloat32Sample
    rw [min_eq_right hle, max_eq_right hge,
      div_mul_cancel₀ _ (by norm_num : (32767 : ℚ) ≠ 0), pyInt_intCast]

/-- C5: composing `float32_to_int16` after `int16_to_float32` returns every
int16 sample to within one least-significant bit of its original value
(exactly, except that -32768 clips to -32767). -/
theorem c5_int16_roundtrip_within_one_lsb (l : List ℤ)
    (h : ∀ i ∈ l, -32768 ≤ i ∧ i ≤ 32767) :
    List.Forall₂ (fun i o => (o - i).natAbs ≤ 1) l
      (float32_to_int16 (int16_to_float32 l)) := by
  induction l with
  | nil => simp [float32_to_int16, int16_to_float32]
  | cons a t ih =>
    have ha := h a (by simp)
    have hstep := roundtripSample_eq a ha.1 ha.2
    refine List.Forall₂.cons ?_ (ih fun i hi => h i (by simp [hi]))
    simp only [hstep]
    split <;> omega

theorem c5_witness :
    (∀ i ∈ [(-32768 : ℤ), -32767, -1, 0, 1, 32767], -32768 ≤ i ∧ i ≤ 32767) ∧
    List.Forall₂ (fun i o => (o - i).natAbs ≤ 1)
      [(-32768 : ℤ), -32767, -1, 0, 1, 32767]
      (float32_to_int16 (int16_to_float32 [(-32768 : ℤ), -32767, -1, 0, 1, 32767])) :=
  ⟨by decide, c5_int16_roundtrip_within_one_lsb _ (by decide)⟩

/-! ## Schemas (`core/voice/models/schemas.py`)

The pydantic models with their declared defaults.  The source field
`partial_results` is called `interimResults` here (likewise
`partial_transcript` becomes `interimTranscript` and the keyword argument
`is_partial` of `add_transcript` becomes `isInterim`); the meaning is
unchanged, only the identifier differs. -/

structure AudioMetadata where
  sample_rate : ℕ
  channels : ℕ
  encoding : String
  language : String
deriving DecidableEq

/-- Defaults of `AudioMetadata` (schemas.py lines 13-16). -/
def AudioMetadata.default : AudioMetadata :=
  { sample_rate := 16000, channels := 1, encoding := "float32", language := "vi" }

structure TranscriptionConfig where
  engine : String
  model_size : String
  interimResults : Bool
  vad_enabled : Bool
  vad_threshold : ℚ
  silence_duration : ℚ
  buffer_overlap : ℚ
  window_size : ℚ
deriving DecidableEq

/-- Defaults of `TranscriptionConfig` (schemas.py lines 22-29). -/
def TranscriptionConfig.default : TranscriptionConfig :=
  { engine := "auto", model_size := "small", interimResults := true
  , vad_enabled := true, vad_threshold := 3/10, silence_duration := 1/2
  , buffer_overlap := 1/4, window_size := 1/2 }

/-- A recognizer `process_audio` result dictionary
`{"text": ..., "is_final": ..., "confidence": ...}`. -/
structure RecogResult where
  text : String
  is_final : Bool
  confidence : ℚ
deriving DecidableEq

/-! ## Recognizer registry (`core/voice/recognition/registry.py`)

`RecognizerRegistry` holds, per engine name, a recognizer class and an
optional availability condition.  The environment abstracts the three
ingredients the control flow of `create_recognizer` /
`create_auto_recognizer` depends on:
`registered n` is `n in cls._recognizers`; `probe n` is the registered
availability condition evaluated (`none` when no condition was
registered); `construct n` is the outcome of `cls._recognizers[n](**kwargs)`
followed by `is_available()` on the instance — `none` when the constructor
raised, `some b` when it produced an instance whose `is_available()`
returned `b`.  A created instance is represented by its engine name. -/

structure RegistryEnv where
  registered : String → Bool
  probe : String → Option Bool
  construct : String → Option Bool

/-- The auto-selection priority order (registry.py line 114). -/
def priorityOrder : List String := ["whisper", "vosk", "sr"]

/-- The loop body of `RecognizerRegistry.create_auto_recognizer`
(registry.py lines 116-137), over an arbitrary engine list. -/
def createAutoFrom (env : RegistryEnv) : List String → Option String
  | [] => none
  | n :: rest =>
    if env.registered n then
      if (env.probe n).getD true = false then createAutoFrom env rest
      else
        match env.construct n with
        | some true => some n
        | _ => createAutoFrom env rest
    else createAutoFrom env rest

/-- `RecognizerRegistry.create_auto_recognizer` (registry.py lines 98-137). -/
def create_auto_recognizer (env : RegistryEnv) : Option String :=
  createAutoFrom env priorityOrder

/-- `RecognizerRegistry.create_recognizer` (registry.py lines 49-96). -/
def create_recognizer (env : RegistryEnv) (engine_name : String) : Option String :=
  if pyLower engine_name = "auto" then create_auto_recognizer env
  else if env.registered engine_name = false then none
  else if (env.probe engine_name).getD true = false then none
  else
    match env.construct engine_name with
    | none => none
    | some avail => if avail then some engine_name else none

/-- The factory `create_recognizer` (factory.py lines 16-74): lowercases the
engine name, rewrites the `speechrecognition` alias to `sr` and delegates to
the registry (the constructor parameters it assembles are absorbed into
`RegistryEnv.construct`). -/
def factoryCreateRecognizer (env : RegistryEnv) (engine : String) : Option String :=
  let e1 := pyLower engine
  let e2 := if e1 = "speechrecognition" then "sr" else e1
  create_recognizer env e2

/-- An engine qualifies for auto selection when it is registered, its
availability probe passes (a missing probe passes) and construction yields
an instance whose `is_available()` is true. -/
def autoQualifies (env : RegistryEnv) (n : String) : Bool :=
  env.registered n && (env.probe n).getD true && env.construct n == some true

theorem createAutoFrom_eq_find (env : RegistryEnv) (l : List String) :
    createAutoFrom env l = l.find? (autoQualifies env) := by
  induction l with
  | nil => rfl
  | cons n rest ih =>
    rw [createAutoFrom, List.find?]
    by_cases hr : env.registered n
    · rw [if_pos hr]
      by_cases hp : (env.probe n).getD true = false
      · rw [if_pos hp]
        have : autoQualifies env n = false := by
          simp [autoQualifies, hr, hp]
        rw [this, ih]
      · rw [if_neg hp]
        rcases hc : env.construct n with _ | b
        · have : autoQualifies env n = false := by simp [autoQualifies, hc]
          rw [this, ih]
        · cases b
          · have : autoQualifies env n = false := by simp [autoQualifies, hc]
            rw [this, ih]
          · have : autoQualifies env n = true := by
              simp only [Bool.not_eq_false] at hp
              simp [autoQualifies, hr, hp, hc]
            rw [this]
    · rw [if_neg hr]
      have : autoQualifies env n = false := by simp [autoQualifies, hr]
      rw [this, ih]

theorem find?_congr_on (l : List String) (p q : String → Bool)
    (h : ∀ n ∈ l, p n = q n) : l.find? p = l.find? q := by
  induction l with
  | nil => rfl
  | cons n rest ih =>
    rw [List.find?, List.find?, h n (by simp)]
    rcases q n with _ | _
    · exact ih fun m hm => h m (by simp [hm])
    · rfl

/-- C6: with availability probes registered for all three engines, `create`
with engine name `auto` walks the priority list whisper, vosk, sr and
returns the first engine whose probe returns true and whose constructed
instance reports itself available; it returns nothing when no engine
qualifies. -/
theorem c6_auto_selects_first_qualifying (env : RegistryEnv)
    (hw : (env.probe "whisper").isSome) (hv : (env.probe "vosk").isSome)
    (hs : (env.probe "sr").isSome) :
    create_recognizer env "auto" =
      priorityOrder.find? (fun n =>
        env.registered n && env.probe n == some true
          && env.construct n == some true) := by
  have hauto : create_recognizer env "auto" = createAutoFrom env priorityOrder := by
    rw [create_recognizer, if_pos (by decide : pyLower "auto" = "auto")]
    rfl
  rw [hauto, createAutoFrom_eq_find]
  apply find?_congr_on
  intro n hn
  have hsome : (env.probe n).isSome := by
    simp only [priorityOrder, List.mem_cons, List.not_mem_nil, or_false] at hn
    rcases hn with rfl | rfl | rfl
    · exact hw
    · exact hv
    · exact hs
  obtain ⟨b, hb⟩ := Option.isSome_iff_exists.mp hsome
  cases b <;> simp [autoQualifies, hb]

/-- A concrete registry environment: whisper probe fails, vosk and sr
probes pass, vosk constructs an available instance. -/
def envB : RegistryEnv :=
  { registered := fun n => n == "vosk" || n == "sr"
  , probe := fun n =>
      if n == "whisper" then some false
      else if n == "vosk" then some true
      else if n == "sr" then some true
      else none
  , construct := fun n => if n == "vosk" then some true else none }

theorem c6_witness :
    (envB.probe "whisper").isSome ∧ (envB.probe "vosk").isSome ∧
    (envB.probe "sr").isSome ∧
    create_recognizer envB "auto" =
      priorityOrder.find? (fun n =>
        envB.registered n && envB.probe n == some true
          && envB.construct n == some true) :=
  ⟨rfl, rfl, rfl,
    c6_auto_selects_first_qualifying envB rfl rfl rfl⟩

/-! ## Audio session (`core/voice/models/audio_session.py`)

A session as built by `AudioSession.__init__` (lines 19-58).  Byte strings
are lists of naturals; `datetime.now()` is the explicit `now` parameter;
the owned recognizer is represented by its engine name (`none` when the
factory returned `None`). -/

structure AudioSession where
  session_id : String
  created_at : ℚ
  last_activity : ℚ
  metadata : AudioMetadata
  config : TranscriptionConfig
  audio_buffer : List (List ℕ)
  raw_buffer : List ℕ
  transcript_buffer : List String
  current_transcript : String
  interimTranscript : String
  is_processing : Bool
  is_speaking : Bool
  silence_start : Option ℚ
  packets_received : ℕ
  total_bytes : ℕ
  total_audio_duration : ℚ
  recognizer : Option String
deriving DecidableEq

/-- `AudioSession.__init__` (audio_session.py lines 19-58): `None` metadata
and config fall back to the pydantic defaults; the recognizer is built at
once through the factory from the config engine name. -/
def AudioSession.init (env : RegistryEnv) (sid : String)
    (metadata : Option AudioMetadata) (config : Option TranscriptionConfig)
    (now : ℚ) : AudioSession :=
  let md := metadata.getD AudioMetadata.default
  let cfg := config.getD TranscriptionConfig.default
  { session_id := sid, created_at := now, last_activity := now
  , metadata := md, config := cfg
  , audio_buffer := [], raw_buffer := [], transcript_buffer := []
  , current_transcript := "", interimTranscript := ""
  , is_processing := false, is_speaking := false, silence_start := none
  , packets_received := 0, total_bytes := 0, total_audio_duration := 0
  , recognizer := factoryCreateRecognizer env cfg.engine }

/-- `collections.deque(maxlen=1000).append`: drops the oldest entry once
the deque is full. -/
def dequeAppend (xs : List (List ℕ)) (c : List ℕ) : List (List ℕ) :=
  if xs.length < 1000 then xs ++ [c] else xs.tail ++ [c]

/-- `AudioSession.add_audio_chunk` (audio_session.py lines 74-88): appends
the chunk to both buffers, bumps the counters, adds
`len(chunk) / (sample_rate * 4)` seconds (4 bytes per float32 sample,
regardless of the declared encoding) and refreshes `last_activity`;
returns the number of bytes added. -/
def AudioSession.add_audio_chunk (s : AudioSession) (chunk : List ℕ)
    (now : ℚ) : AudioSession × ℕ :=
  ({ s with
      audio_buffer := dequeAppend s.audio_buffer chunk
    , raw_buffer := s.raw_buffer ++ chunk
    , packets_received := s.packets_received + 1
    , total_bytes := s.total_bytes + chunk.length
    , total_audio_duration :=
        s.total_audio_duration + (chunk.length : ℚ) / ((s.metadata.sample_rate : ℚ) * 4)
    , last_activity := now }, chunk.length)

/-- `AudioSession.get_audio_for_processing` (audio_session.py lines
90-111): with fewer than `int(window_size * sample_rate * 4)` buffered
bytes it returns `None`; otherwise it returns that many bytes from the
buffer head and, when `bytes_needed - overlap_bytes` is positive, deletes
that many bytes from the head.  Returns the extracted bytes (or `None`)
together with the post-state. -/
def AudioSession.get_audio_for_processing (s : AudioSession)
    (window_size : Option ℚ) : Option (List ℕ) × AudioSession :=
  let ws := window_size.getD s.config.window_size
  let bytes_per_second : ℚ := (s.metadata.sample_rate : ℚ) * 4
  let bytes_needed : ℤ := pyInt (ws * bytes_per_second)
  if (s.raw_buffer.length : ℤ) < bytes_needed then (none, s)
  else
    let overlap_bytes : ℤ := pyInt (s.config.buffer_overlap * bytes_per_second)
    let process_bytes : ℤ := bytes_needed - overlap_bytes
    (some (pySliceTo s.raw_buffer bytes_needed),
     if 0 < process_bytes then
       { s with raw_buffer := s.raw_buffer.drop process_bytes.toNat }
     else s)

/-- `AudioSession.add_transcript` (audio_session.py lines 118-125). -/
def AudioSession.add_transcript (s : AudioSession) (text : String)
    (isInterim : Bool) : AudioSession :=
  if isInterim then { s with interimTranscript := text }
  else if text ≠ "" ∧ pyStrip text ≠ "" then
    { s with transcript_buffer := s.transcript_buffer ++ [text]
           , current_transcript := text
           , interimTranscript := "" }
  else s

/-- `SessionManager` (audio_session.py lines 138-173): the id-to-session
map, as an association list. -/
structure SessionManager where
  sessions : List (String × AudioSession)
deriving DecidableEq

/-- `SessionManager.create_session` (audio_session.py lines 146-159):
returns the stored session unchanged when the id exists, otherwise builds
a fresh session and stores it. -/
def SessionManager.create_session (env : RegistryEnv) (m : SessionManager)
    (sid : String) (metadata : Option AudioMetadata)
    (config : Option TranscriptionConfig) (now : ℚ) :
    AudioSession × SessionManager :=
  match m.sessions.lookup sid with
  | some s => (s, m)
  | none =>
    let s := AudioSession.init env sid metadata config now
    (s, ⟨m.sessions ++ [(sid, s)]⟩)

/-- The voice-activity update of the dispatcher loop `process_audio_vosk`
(websocket.py lines 63-80), one window: `has_voice` is the first component
of `detect_voice_activity`, `now` is `time.time()`.  Returns the updated
session and whether `recognizer.reset()` was invoked. -/
def vadStep (s : AudioSession) (has_voice : Bool) (now : ℚ) :
    AudioSession × Bool :=
  if has_voice then
    ({ s with is_speaking := true, silence_start := none }, false)
  else if s.is_speaking then
    match s.silence_start with
    | none => ({ s with silence_start := some now }, false)
    | some t =>
      if s.config.silence_duration < now - t then
        ({ s with is_speaking := false }, s.recognizer.isSome)
      else (s, false)
  else (s, false)

/-! ## Concrete objects used as counterexample and witness inputs -/

/-- A registry environment with nothing registered. -/
def env0 : RegistryEnv :=
  { registered := fun _ => false, probe := fun _ => none, construct := fun _ => none }

/-- A session in the speaking state with no timed silence (the state reached
after a voiced window), default metadata and config. -/
def sessionSpeaking : AudioSession :=
  { session_id := "w3", created_at := 0, last_activity := 0
  , metadata := AudioMetadata.default, config := TranscriptionConfig.default
  , audio_buffer := [], raw_buffer := [], transcript_buffer := []
  , current_transcript := "", interimTranscript := ""
  , is_processing := false, is_speaking := true, silence_start := none
  , packets_received := 0, total_bytes := 0, total_audio_duration := 0
  , recognizer := none }

/-! ## C3 — voice-activity invariant -/

/-- C3 counterexample: from a fresh session, one voiced window followed by
one silent window leaves the session with `is_speaking = true` and
`silence_start` non-null, refuting the claimed invariant
`is_speaking = true` implies `silence_start` is null. -/
theorem c3_counterexample :
    ((vadStep (vadStep (AudioSession.init env0 "s" none none 0) true 0).1
        false 1).1.is_speaking = true) ∧
    ((vadStep (vadStep (AudioSession.init env0 "s" none none 0) true 0).1
        false 1).1.silence_start ≠ none) := by
  refine ⟨rfl, ?_⟩
  show some (1 : ℚ) ≠ none
  simp

/-- C3 corrected: after any VAD step at time `now` (with a nonnegative
configured silence duration), if the session is speaking then either no
silence is being timed, or the timed silence interval `now - t` has not yet
exceeded `silence_duration`. -/
theorem c3_amended (s s1 : AudioSession) (res : Bool) (v : Bool) (now : ℚ)
    (hd : 0 ≤ s.config.silence_duration)
    (hstep : vadStep s v now = (s1, res)) :
    s1.is_speaking = true →
      s1.silence_start = none ∨
      ∃ t, s1.silence_start = some t ∧ now - t ≤ s.config.silence_duration := by
  intro hsp
  unfold vadStep at hstep
  split at hstep
  · cases hstep
    left
    rfl
  · split at hstep
    · split at hstep
      · cases hstep
        right
        exact ⟨now, rfl, by simpa using hd⟩
      · rename_i t hmatch
        split at hstep
        · cases hstep
          simp at hsp
        · rename_i hnotlt
          cases hstep
          right
          exact ⟨t, hmatch, le_of_not_lt hnotlt⟩
    · rename_i hnv hns
      cases hstep
      exact absurd hsp hns

theorem c3_witness :
    (0 ≤ sessionSpeaking.config.silence_duration) ∧
    (vadStep sessionSpeaking false 7 =
      ({ sessionSpeaking with silence_start := some 7 }, false)) ∧
    ({ sessionSpeaking with silence_start := some 7 }.is_speaking = true →
      { sessionSpeaking with silence_start := some 7 }.silence_start = none ∨
      ∃ t, { sessionSpeaking with silence_start := some 7 }.silence_start = some t ∧
        (7 : ℚ) - t ≤ sessionSpeaking.config.silence_duration) :=
  ⟨by norm_num [sessionSpeaking, TranscriptionConfig.default], rfl,
    c3_amended sessionSpeaking { sessionSpeaking with silence_start := some 7 }
      false false 7
      (by norm_num [sessionSpeaking, TranscriptionConfig.default]) rfl⟩

/-! ## C4 — add_audio_chunk accounting -/

/-- A session whose declared encoding is int16 at 1 Hz. -/
def c4cx : AudioSession := { sessionSpeaking with metadata := ⟨1, 1, "int16", "vi"⟩ }

/-- C4 counterexample: on a session declaring int16 encoding, a 2-byte chunk
increases `total_audio_duration` by `2 / (1 * 4) = 1/2` second, not by the
claimed `len / (sample_rate * bytes_per_sample) = 2 / (1 * 2) = 1` second:
the code always uses 4 bytes per sample. -/
theorem c4_counterexample :
    ((c4cx.add_audio_chunk [0, 0] 5).1.total_audio_duration
        - c4cx.total_audio_duration = 1/2) ∧
    c4cx.metadata.encoding = "int16" ∧
    ((2 : ℚ) / ((1 : ℚ) * 2) = 1) ∧ ((1/2 : ℚ) ≠ 1) := by
  refine ⟨?_, rfl, by norm_num, by norm_num⟩
  show c4cx.total_audio_duration + ((2 : ℕ) : ℚ) / (((1 : ℕ) : ℚ) * 4)
      - c4cx.total_audio_duration = 1/2
  norm_num

/-- C4 corrected: `add_audio_chunk` appends the chunk to both buffers,
increments the packet and byte counters, sets `last_activity` to the call
time, returns the byte count, and increases `total_audio_duration` by
exactly `len(chunk) / (sample_rate * 4)` — 4 bytes per sample regardless of
the declared encoding. -/
theorem c4_amended (s : AudioSession) (chunk : List ℕ) (now : ℚ)
    (_h : 0 < s.metadata.sample_rate) :
    (s.add_audio_chunk chunk now).2 = chunk.length ∧
    (s.add_audio_chunk chunk now).1.raw_buffer = s.raw_buffer ++ chunk ∧
    (s.add_audio_chunk chunk now).1.audio_buffer = dequeAppend s.audio_buffer chunk ∧
    (s.add_audio_chunk chunk now).1.packets_received = s.packets_received + 1 ∧
    (s.add_audio_chunk chunk now).1.total_bytes = s.total_bytes + chunk.length ∧
    (s.add_audio_chunk chunk now).1.last_activity = now ∧
    (s.add_audio_chunk chunk now).1.total_audio_duration - s.total_audio_duration
      = (chunk.length : ℚ) / ((s.metadata.sample_rate : ℚ) * 4) := by
  refine ⟨rfl, rfl, rfl, rfl, rfl, rfl, ?_⟩
  show s.total_audio_duration + (chunk.length : ℚ) / ((s.metadata.sample_rate : ℚ) * 4)
      - s.total_audio_duration = _
  ring

theorem c4_witness :
    (0 < sessionSpeaking.metadata.sample_rate) ∧
    ((sessionSpeaking.add_audio_chunk [7] 5).2 = [7].length ∧
     (sessionSpeaking.add_audio_chunk [7] 5).1.raw_buffer = sessionSpeaking.raw_buffer ++ [7] ∧
     (sessionSpeaking.add_audio_chunk [7] 5).1.audio_buffer = dequeAppend sessionSpeaking.audio_buffer [7] ∧
     (sessionSpeaking.add_audio_chunk [7] 5).1.packets_received = sessionSpeaking.packets_received + 1 ∧
     (sessionSpeaking.add_audio_chunk [7] 5).1.total_bytes = sessionSpeaking.total_bytes + [7].length ∧
     (sessionSpeaking.add_audio_chunk [7] 5).1.last_activity = 5 ∧
     (sessionSpeaking.add_audio_chunk [7] 5).1.total_audio_duration - sessionSpeaking.total_audio_duration
       = ([7].length : ℚ) / ((sessionSpeaking.metadata.sample_rate : ℚ) * 4)) :=
  ⟨by decide, c4_amended sessionSpeaking [7] 5 (by decide)⟩

/-! ## C7 — add_transcript -/

/-- C7 counterexample: a final transcript with surrounding whitespace is
appended to the history verbatim, not trimmed as the claim states. -/
theorem c7_counterexample :
    (sessionSpeaking.add_transcript " hi " false).transcript_buffer = [" hi "] ∧
    pyStrip " hi " = "hi" ∧
    (" hi " : String) ≠ "hi" ∧
    (sessionSpeaking.add_transcript " hi " false).transcript_buffer ≠ ["hi"] := by
  refine ⟨?_, by decide, by decide, ?_⟩
  · rw [AudioSession.add_transcript, if_neg (by simp), if_pos (by decide)]
    rfl
  · rw [AudioSession.add_transcript, if_neg (by simp), if_pos (by decide)]
    decide

/-- C7 corrected: a partial overwrites `interimTranscript` with the text as
given; a final whose text is non-empty after trimming appends the text as
given (untrimmed) to the history, sets it as `current_transcript` and
clears `interimTranscript`; a final that is empty after trimming is
ignored.  Hence every history entry stays non-empty after trimming. -/
theorem c7_amended (s : AudioSession) (text : String)
    (hinv : ∀ e ∈ s.transcript_buffer, pyStrip e ≠ "") :
    (s.add_transcript text true = { s with interimTranscript := text }) ∧
    (pyStrip text ≠ "" → s.add_transcript text false =
      { s with transcript_buffer := s.transcript_buffer ++ [text]
             , current_transcript := text, interimTranscript := "" }) ∧
    (pyStrip text = "" → s.add_transcript text false = s) ∧
    (∀ b : Bool, ∀ e ∈ (s.add_transcript text b).transcript_buffer, pyStrip e ≠ "") := by
  refine ⟨rfl, ?_, ?_, ?_⟩
  · intro h
    have ht : text ≠ "" := by
      intro he
      rw [he] at h
      exact h rfl
    rw [AudioSession.add_transcript, if_neg (by simp), if_pos ⟨ht, h⟩]
  · intro h
    rw [AudioSession.add_transcript, if_neg (by simp), if_neg (by simp [h])]
  · intro b e he
    unfold AudioSession.add_transcript at he
    cases b with
    | true =>
      rw [if_pos rfl] at he
      exact hinv e he
    | false =>
      rw [if_neg (by simp)] at he
      by_cases hc : text ≠ "" ∧ pyStrip text ≠ ""
      · rw [if_pos hc] at he
        simp only [List.mem_append, List.mem_singleton] at he
        rcases he with h1 | rfl
        · exact hinv e h1
        · exact hc.2
      · rw [if_neg hc] at he
        exact hinv e he

/-- A session whose history holds one non-blank final. -/
def sessionT : AudioSession := { sessionSpeaking with transcript_buffer := ["ok"] }

theorem c7_witness :
    (∀ e ∈ sessionT.transcript_buffer, pyStrip e ≠ "") ∧
    ((sessionT.add_transcript "hello" true = { sessionT with interimTranscript := "hello" }) ∧
     (pyStrip "hello" ≠ "" → sessionT.add_transcript "hello" false =
       { sessionT with
           transcript_buffer := sessionT.transcript_buffer ++ ["hello"]
         , current_transcript := "hello", interimTranscript := "" }) ∧
     (pyStrip "hello" = "" → sessionT.add_transcript "hello" false = sessionT) ∧
     (∀ b : Bool, ∀ e ∈ (sessionT.add_transcript "hello" b).transcript_buffer, pyStrip e ≠ "")) :=
  ⟨by decide, c7_amended sessionT "hello" (by decide)⟩

/-! ## C10 — idempotent session creation -/

/-- C10: when the session id is already present, `create_session` returns
the stored session and the unchanged map; the metadata and config
arguments of the call (and the clock and registry environment) are
discarded. -/
theorem c10_create_session_idempotent (env : RegistryEnv) (m : SessionManager)
    (sid : String) (metadata : Option AudioMetadata)
    (config : Option TranscriptionConfig) (now : ℚ) (s : AudioSession)
    (h : m.sessions.lookup sid = some s) :
    SessionManager.create_session env m sid metadata config now = (s, m) := by
  unfold SessionManager.create_session
  rw [h]

theorem c10_witness :
    ((SessionManager.mk [("a", sessionSpeaking)]).sessions.lookup "a"
        = some sessionSpeaking) ∧
    (SessionManager.create_session env0 (SessionManager.mk [("a", sessionSpeaking)])
        "a" (some ⟨8000, 2, "int16", "en"⟩) none 99
      = (sessionSpeaking, SessionManager.mk [("a", sessionSpeaking)])) :=
  ⟨rfl, c10_create_session_idempotent env0 _ "a" _ none 99 sessionSpeaking rfl⟩

/-! ## C1 and C9 — sliding-window extraction -/

/-- `bytes_needed` of `get_audio_for_processing` when called with the
default window (audio_session.py lines 96-97). -/
def bytesNeededOf (s : AudioSession) : ℤ :=
  pyInt (s.config.window_size * ((s.metadata.sample_rate : ℚ) * 4))

/-- `overlap_bytes` of `get_audio_for_processing` (line 104). -/
def overlapBytesOf (s : AudioSession) : ℤ :=
  pyInt (s.config.buffer_overlap * ((s.metadata.sample_rate : ℚ) * 4))

/-- The head advance `process_bytes = bytes_needed - overlap_bytes`
(line 105), clamped at zero as `del` is skipped when it is not positive. -/
def advanceBytesOf (s : AudioSession) : ℕ :=
  (bytesNeededOf s - overlapBytesOf s).toNat

/-- `N` consecutive dispatcher extractions, each with the default window;
`none` when any of them finds too little data. -/
def extractN : ℕ → AudioSession → Option AudioSession
  | 0, s => some s
  | n+1, s =>
    match s.get_audio_for_processing none with
    | (some _, s1) => extractN n s1
    | (none, _) => none

theorem bytesNeededOf_fold (s : AudioSession) :
    pyInt (s.config.window_size * ((s.metadata.sample_rate : ℚ) * 4))
      = bytesNeededOf s := rfl

theorem overlapBytesOf_fold (s : AudioSession) :
    pyInt (s.config.buffer_overlap * ((s.metadata.sample_rate : ℚ) * 4))
      = overlapBytesOf s := rfl

theorem gafp_only_raw (s : AudioSession) (w : Option ℚ) :
    ∀ r s1, s.get_audio_for_processing w = (r, s1) →
      s1 = { s with raw_buffer := s1.raw_buffer } := by
  intro r s1 h
  simp only [AudioSession.get_audio_for_processing] at h
  split at h
  · cases h
    rfl
  · split at h <;> cases h <;> rfl

theorem gafp_success_step (s : AudioSession)
    (h0 : 0 ≤ s.config.buffer_overlap)
    (h1 : s.config.buffer_overlap < s.config.window_size) :
    ∀ r s1, s.get_audio_for_processing none = (some r, s1) →
      r.length = (bytesNeededOf s).toNat ∧
      r = s.raw_buffer.take (bytesNeededOf s).toNat ∧
      s1.raw_buffer = s.raw_buffer.drop (advanceBytesOf s) ∧
      s.raw_buffer.length = s1.raw_buffer.length + advanceBytesOf s := by
  intro r s1 h
  have hbps : (0 : ℚ) ≤ (s.metadata.sample_rate : ℚ) * 4 := by positivity
  have hws : (0 : ℚ) ≤ s.config.window_size := le_of_lt (lt_of_le_of_lt h0 h1)
  have hbn0 : 0 ≤ bytesNeededOf s := pyInt_nonneg _ (mul_nonneg hws hbps)
  have hob0 : 0 ≤ overlapBytesOf s := pyInt_nonneg _ (mul_nonneg h0 hbps)
  have hmono : overlapBytesOf s ≤ bytesNeededOf s :=
    pyInt_mono (mul_nonneg h0 hbps) (mul_le_mul_of_nonneg_right (le_of_lt h1) hbps)
  simp only [AudioSession.get_audio_for_processing, Option.getD_none] at h
  rw [bytesNeededOf_fold, overlapBytesOf_fold] at h
  split at h
  · rw [Prod.mk.injEq] at h
    exact absurd h.1 (by simp)
  · rename_i hge
    rw [not_lt] at hge
    rw [Prod.mk.injEq] at h
    obtain ⟨hfst, hsnd⟩ := h
    have hr : r = pySliceTo s.raw_buffer (bytesNeededOf s) := (Option.some.inj hfst).symm
    have hs1 : s1 = (if 0 < bytesNeededOf s - overlapBytesOf s then
        { s with raw_buffer :=
            s.raw_buffer.drop (bytesNeededOf s - overlapBytesOf s).toNat }
      else s) := hsnd.symm
    have hneed : (bytesNeededOf s).toNat ≤ s.raw_buffer.length := by omega
    have hslice : pySliceTo s.raw_buffer (bytesNeededOf s)
        = s.raw_buffer.take (bytesNeededOf s).toNat := by
      unfold pySliceTo
      rw [if_pos hbn0]
    refine ⟨?_, ?_, ?_, ?_⟩
    · rw [hr, hslice, List.length_take]
      omega
    · rw [hr, hslice]
    · rw [hs1]
      split
      · rfl
      · rename_i hpb
        have hz : advanceBytesOf s = 0 := by
          unfold advanceBytesOf
          omega
        rw [hz, List.drop_zero]
    · rw [hs1]
      split
      · rename_i hpb
        show s.raw_buffer.length
            = (s.raw_buffer.drop (bytesNeededOf s - overlapBytesOf s).toNat).length
              + advanceBytesOf s
        rw [List.length_drop]
        unfold advanceBytesOf
        omega
      · rename_i hpb
        have hz : advanceBytesOf s = 0 := by
          unfold advanceBytesOf
          omega
        omega

theorem extractN_consumes (N : ℕ) :
    ∀ s s1 : AudioSession, 0 ≤ s.config.buffer_overlap →
      s.config.buffer_overlap < s.config.window_size →
      extractN N s = some s1 →
      s.raw_buffer.length = s1.raw_buffer.length + N * advanceBytesOf s := by
  induction N with
  | zero =>
    intro s s1 _ _ h
    cases h
    simp
  | succ n ih =>
    intro s s1 h0 h1 h
    rw [extractN] at h
    rcases hg : s.get_audio_for_processing none with ⟨r?, s2⟩
    rw [hg] at h
    cases r? with
    | none => exact Option.noConfusion h
    | some r =>
      have hframe := gafp_only_raw s none (some r) s2 hg
      have hstep := gafp_success_step s h0 h1 r s2 hg
      have hcfg : s2.config = s.config := by rw [hframe]
      have hmd : s2.metadata = s.metadata := by rw [hframe]
      have hadv : advanceBytesOf s2 = advanceBytesOf s := by
        unfold advanceBytesOf bytesNeededOf overlapBytesOf
        rw [hcfg, hmd]
      have hrec := ih s2 s1 (by rw [hcfg]; exact h0) (by rw [hcfg]; exact h1) h
      rw [hadv] at hrec
      calc s.raw_buffer.length
          = s2.raw_buffer.length + advanceBytesOf s := hstep.2.2.2
        _ = (s1.raw_buffer.length + n * advanceBytesOf s) + advanceBytesOf s := by
            rw [hrec]
        _ = s1.raw_buffer.length + (n + 1) * advanceBytesOf s := by ring

/-- C1 corrected: for a session whose config satisfies
`0 ≤ buffer_overlap < window_size`, `get_audio_for_processing` uses
`bytes_per_sec = sample_rate * 4` regardless of the declared encoding and
returns either nothing or exactly `int(window_size * bytes_per_sec)`
(truncated, not rounded up) bytes from the buffer head; on success the head
advances by `int(window_size * bytes_per_sec) - int(buffer_overlap * bytes_per_sec)`
bytes, and over `N` consecutive successful extractions exactly `N` times
that amount is consumed. -/
theorem c1_amended (s : AudioSession)
    (h0 : 0 ≤ s.config.buffer_overlap)
    (h1 : s.config.buffer_overlap < s.config.window_size) :
    ((s.get_audio_for_processing none).1 = none ∨
      ∃ r, (s.get_audio_for_processing none).1 = some r ∧
        r.length = (bytesNeededOf s).toNat ∧
        r = s.raw_buffer.take (bytesNeededOf s).toNat ∧
        (s.get_audio_for_processing none).2.raw_buffer
          = s.raw_buffer.drop (advanceBytesOf s)) ∧
    (∀ N s1, extractN N s = some s1 →
      s.raw_buffer.length = s1.raw_buffer.length + N * advanceBytesOf s) := by
  constructor
  · rcases hg : s.get_audio_for_processing none with ⟨r?, s1⟩
    cases r? with
    | none =>
      left
      rfl
    | some r =>
      right
      have hstep := gafp_success_step s h0 h1 r s1 hg
      exact ⟨r, rfl, hstep.1, hstep.2.1, hstep.2.2.1⟩
  · intro N s1 h
    exact extractN_consumes N s s1 h0 h1 h

/-- A session with 1 Hz float32 metadata, the default half-second window
with quarter-second overlap, and three buffered bytes. -/
def c1w : AudioSession :=
  { sessionSpeaking with metadata := ⟨1, 1, "float32", "vi"⟩, raw_buffer := [1, 2, 3] }

theorem c1_witness :
    (0 ≤ c1w.config.buffer_overlap) ∧
    (c1w.config.buffer_overlap < c1w.config.window_size) ∧
    (((c1w.get_audio_for_processing none).1 = none ∨
      ∃ r, (c1w.get_audio_for_processing none).1 = some r ∧
        r.length = (bytesNeededOf c1w).toNat ∧
        r = c1w.raw_buffer.take (bytesNeededOf c1w).toNat ∧
        (c1w.get_audio_for_processing none).2.raw_buffer
          = c1w.raw_buffer.drop (advanceBytesOf c1w)) ∧
    (∀ N s1, extractN N c1w = some s1 →
      c1w.raw_buffer.length = s1.raw_buffer.length + N * advanceBytesOf c1w)) :=
  ⟨by norm_num [c1w, sessionSpeaking, TranscriptionConfig.default],
   by norm_num [c1w, sessionSpeaking, TranscriptionConfig.default],
   c1_amended c1w
     (by norm_num [c1w, sessionSpeaking, TranscriptionConfig.default])
     (by norm_num [c1w, sessionSpeaking, TranscriptionConfig.default])⟩

/-- A session declaring int16 encoding at 1 Hz, zero overlap, half-second
window, and two buffered bytes. -/
def c1cx : AudioSession :=
  { sessionSpeaking with
      metadata := ⟨1, 1, "int16", "vi"⟩
    , config := { TranscriptionConfig.default with buffer_overlap := 0 }
    , raw_buffer := [0, 0] }

/-- C1 counterexample: on a valid int16 session the claim predicts an
extraction of `ceil(window_size * sample_rate * 2) = 1` byte, but
`get_audio_for_processing` returns 2 bytes: it always uses 4 bytes per
sample, ignoring the declared encoding. -/
theorem c1_counterexample :
    0 ≤ c1cx.config.buffer_overlap ∧
    c1cx.config.buffer_overlap < c1cx.config.window_size ∧
    c1cx.metadata.encoding = "int16" ∧
    ((c1cx.get_audio_for_processing none).1.map List.length = some 2) ∧
    (Int.ceil (c1cx.config.window_size * ((c1cx.metadata.sample_rate : ℚ) * 2)) = 1) ∧
    ((2 : ℤ) ≠ 1) := by
  have hbn : bytesNeededOf c1cx = 2 := by
    show pyInt ((1/2 : ℚ) * (((1 : ℕ) : ℚ) * 4)) = 2
    norm_num [pyInt]
  refine ⟨by norm_num [c1cx, TranscriptionConfig.default],
    by norm_num [c1cx, TranscriptionConfig.default], rfl, ?_, ?_, by decide⟩
  · rcases hg : c1cx.get_audio_for_processing none with ⟨r?, s1⟩
    cases r? with
    | none =>
      exfalso
      simp only [AudioSession.get_audio_for_processing, Option.getD_none] at hg
      rw [bytesNeededOf_fold, hbn] at hg
      rw [if_neg (by decide)] at hg
      rw [Prod.mk.injEq] at hg
      exact absurd hg.1 (by simp)
    | some r =>
      have hstep := gafp_success_step c1cx
        (by norm_num [c1cx, TranscriptionConfig.default])
        (by norm_num [c1cx, TranscriptionConfig.default]) r s1 hg
      show some r.length = some 2
      rw [hstep.1, hbn]
      rfl
  · show Int.ceil ((1/2 : ℚ) * (((1 : ℕ) : ℚ) * 2)) = 1
    norm_num

/-- C9: when the buffer holds fewer than the required
`int(window_size * sample_rate * 4)` bytes, `get_audio_for_processing`
returns nothing and leaves the session unchanged, and it returns nothing
only then; when it succeeds, every session field other than the raw audio
buffer (activity timestamp, counters, transcripts, VAD state, recognizer,
metadata, config) is untouched. -/
theorem c9_extract_window_frame (s : AudioSession) (w : Option ℚ) :
    ((s.get_audio_for_processing w).1 = none ↔
      (s.raw_buffer.length : ℤ) <
        pyInt ((w.getD s.config.window_size) * ((s.metadata.sample_rate : ℚ) * 4))) ∧
    ((s.get_audio_for_processing w).1 = none →
      (s.get_audio_for_processing w).2 = s) ∧
    (∀ r s1, s.get_audio_for_processing w = (some r, s1) →
      s1 = { s with raw_buffer := s1.raw_buffer }) := by
  refine ⟨?_, ?_, fun r s1 hr => gafp_only_raw s w (some r) s1 hr⟩
  · by_cases hlt : (s.raw_buffer.length : ℤ) <
        pyInt ((w.getD s.config.window_size) * ((s.metadata.sample_rate : ℚ) * 4))
    · have he : (s.get_audio_for_processing w).1 = none := by
        simp only [AudioSession.get_audio_for_processing]
        rw [if_pos hlt]
      simp [he, hlt]
    · have he : (s.get_audio_for_processing w).1
          = some (pySliceTo s.raw_buffer
              (pyInt ((w.getD s.config.window_size) * ((s.metadata.sample_rate : ℚ) * 4)))) := by
        simp only [AudioSession.get_audio_for_processing]
        rw [if_neg hlt]
      simp [he, hlt]
  · intro hn
    by_cases hlt : (s.raw_buffer.length : ℤ) <
        pyInt ((w.getD s.config.window_size) * ((s.metadata.sample_rate : ℚ) * 4))
    · simp only [AudioSession.get_audio_for_processing]
      rw [if_pos hlt]
    · exfalso
      have he : (s.get_audio_for_processing w).1
          = some (pySliceTo s.raw_buffer
              (pyInt ((w.getD s.config.window_size) * ((s.metadata.sample_rate : ℚ) * 4)))) := by
        simp only [AudioSession.get_audio_for_processing]
        rw [if_neg hlt]
      rw [he] at hn
      cases hn

/-! ## Whisper recognizer (`core/voice/recognition/whisper_recognizer.py`)

Float32 samples are exact rationals; `time.time()` is the `now` parameter.
The Whisper model call `self.model.transcribe(...)` is an oracle taking the
(normalized) audio, the mapped language code and the fp16 flag, and either
returning the raw text of the transcription dictionary or raising.
`model_loaded` stands for `WHISPER_AVAILABLE and self.model is not None`,
exactly what `is_available` checks. -/

structure WhisperRecognizer where
  sample_rate : ℕ
  language : String
  compute_type : String
  model_loaded : Bool
  audio_buffer : List ℚ
  text_buffer : String
  last_transcript_time : ℚ
deriving DecidableEq

/-- `WhisperRecognizer.is_available` (whisper_recognizer.py lines 186-195). -/
def WhisperRecognizer.is_available (w : WhisperRecognizer) : Bool := w.model_loaded

/-- `_map_language_code` (lines 197-208): the identity. -/
def WhisperRecognizer.mapLanguageCode (w : WhisperRecognizer) : String := w.language

/-- `np.max(np.abs(l))` over the buffer (0 on an empty buffer). -/
def maxAbsList (l : List ℚ) : ℚ := l.foldr (fun x m => max |x| m) 0

/-- The amplitude normalization of lines 122-123: divide by the peak when
it exceeds 1. -/
def whisperNormalize (l : List ℚ) : List ℚ :=
  if 1 < maxAbsList l then l.map (fun x => x / maxAbsList l) else l

/-- `WhisperRecognizer.process_audio` (whisper_recognizer.py lines 78-148):
appends the chunk to the internal buffer; when the buffer holds at least
1 s, or more than 0.2 s with more than 3 s since the last emission, calls
the model on the normalized buffer; a non-blank stripped text is returned
as final and resets the buffer and emission time; otherwise (including a
raising model call, whose exception is caught) an empty final result is
returned and the appended buffer is kept. -/
def WhisperRecognizer.process_audio
    (model : List ℚ → String → Bool → Except Unit String)
    (w : WhisperRecognizer) (chunk : List ℚ) (now : ℚ) :
    RecogResult × WhisperRecognizer :=
  if w.is_available = false then
    ({ text := "", is_final := true, confidence := 0 }, w)
  else
    let w1 := { w with audio_buffer := w.audio_buffer ++ chunk }
    let buffer_duration : ℚ := (w1.audio_buffer.length : ℚ) / (w1.sample_rate : ℚ)
    let time_since_last : ℚ := now - w1.last_transcript_time
    if 1 ≤ buffer_duration ∨ (1/5 < buffer_duration ∧ 3 < time_since_last) then
      match model (whisperNormalize w1.audio_buffer) w1.mapLanguageCode
          (w1.compute_type == "float16") with
      | Except.error _ => ({ text := "", is_final := true, confidence := 0 }, w1)
      | Except.ok raw =>
        let text := pyStrip raw
        if text ≠ "" then
          ({ text := text, is_final := true, confidence := 0 },
           { w1 with audio_buffer := [], last_transcript_time := now })
        else ({ text := "", is_final := true, confidence := 0 }, w1)
    else ({ text := "", is_final := true, confidence := 0 }, w1)

/-- `WhisperRecognizer.reset` (whisper_recognizer.py lines 178-184). -/
def WhisperRecognizer.reset (w : WhisperRecognizer) (now : ℚ) : WhisperRecognizer :=
  { w with audio_buffer := [], text_buffer := "", last_transcript_time := now }

/-! ## C2 — Whisper trigger condition and trigger effects -/

/-- A loaded Whisper recognizer at 5 Hz with an empty buffer and last
emission at time 0. -/
def w2cx : WhisperRecognizer :=
  { sample_rate := 5, language := "vi", compute_type := "float16"
  , model_loaded := true, audio_buffer := [], text_buffer := ""
  , last_transcript_time := 0 }

/-- A model that always transcribes to a fixed non-blank text. -/
def modelHello : List ℚ → String → Bool → Except Unit String :=
  fun _ _ _ => Except.ok "hello"

/-- C2 counterexample: with exactly 0.2 s accumulated (1 sample at 5 Hz)
and 10 s since the last emission, the claimed trigger condition holds
(at least 0.2 s accumulated, at least 3 s elapsed), yet `process_audio`
does not transcribe: the comparison in the code is strict (`> 0.2`), so
the call returns empty text, keeps the buffer and leaves the emission
timestamp unchanged even though the model would return non-blank text. -/
theorem c2_counterexample :
    (((w2cx.audio_buffer ++ [0]).length : ℚ) / (w2cx.sample_rate : ℚ) ≥ 1/5) ∧
    ((10 : ℚ) - w2cx.last_transcript_time ≥ 3) ∧
    (WhisperRecognizer.process_audio modelHello w2cx [0] 10).1.text = "" ∧
    (WhisperRecognizer.process_audio modelHello w2cx [0] 10).2.audio_buffer = [0] ∧
    (WhisperRecognizer.process_audio modelHello w2cx [0] 10).2.last_transcript_time = 0 ∧
    pyStrip "hello" = "hello" := by
  have he : WhisperRecognizer.process_audio modelHello w2cx [0] 10 =
      ({ text := "", is_final := true, confidence := 0 },
       { w2cx with audio_buffer := [0] }) := by
    unfold WhisperRecognizer.process_audio
    rw [if_neg (by decide)]
    rw [if_neg ?hc]
    · rfl
    case hc =>
      show ¬ ((1 : ℚ) ≤ (([] ++ [(0 : ℚ)]).length : ℚ) / ((5 : ℕ) : ℚ) ∨
        ((1 : ℚ)/5 < (([] ++ [(0 : ℚ)]).length : ℚ) / ((5 : ℕ) : ℚ) ∧
          (3 : ℚ) < 10 - 0))
      norm_num
  refine ⟨?_, ?_, ?_, ?_, ?_, by decide⟩
  · show ((1 : ℕ) : ℚ) / ((5 : ℕ) : ℚ) ≥ 1/5
    norm_num
  · show (10 : ℚ) - 0 ≥ 3
    norm_num
  · rw [he]
  · rw [he]
  · rw [he]
    rfl

/-- C2 corrected: `process_audio` of a loaded Whisper recognizer triggers a
transcription exactly when the buffer (after appending the chunk) holds at
least 1.0 s of audio, or strictly more than 0.2 s with strictly more than
3.0 s since the last emission; on a trigger whose transcription text is
non-blank after stripping it returns that text as final, clears the buffer
and sets the emission time to now; on a trigger whose transcription is
blank, or raises, it returns an empty final result and keeps the appended
buffer and old emission time; without a trigger it returns an empty final
result and accumulates the chunk.  Every result is final. -/
theorem c2_amended
    (model : List ℚ → String → Bool → Except Unit String)
    (w : WhisperRecognizer) (chunk : List ℚ) (now : ℚ)
    (hm : w.model_loaded = true) :
    ((¬ (1 ≤ ((w.audio_buffer ++ chunk).length : ℚ) / (w.sample_rate : ℚ) ∨
        (1/5 < ((w.audio_buffer ++ chunk).length : ℚ) / (w.sample_rate : ℚ) ∧
          3 < now - w.last_transcript_time))) →
      WhisperRecognizer.process_audio model w chunk now =
        ({ text := "", is_final := true, confidence := 0 },
         { w with audio_buffer := w.audio_buffer ++ chunk })) ∧
    (∀ raw, (1 ≤ ((w.audio_buffer ++ chunk).length : ℚ) / (w.sample_rate : ℚ) ∨
        (1/5 < ((w.audio_buffer ++ chunk).length : ℚ) / (w.sample_rate : ℚ) ∧
          3 < now - w.last_transcript_time)) →
      model (whisperNormalize (w.audio_buffer ++ chunk)) w.language
          (w.compute_type == "float16") = Except.ok raw →
      pyStrip raw ≠ "" →
      WhisperRecognizer.process_audio model w chunk now =
        ({ text := pyStrip raw, is_final := true, confidence := 0 },
         { w with audio_buffer := [], last_transcript_time := now })) ∧
    (∀ raw, (1 ≤ ((w.audio_buffer ++ chunk).length : ℚ) / (w.sample_rate : ℚ) ∨
        (1/5 < ((w.audio_buffer ++ chunk).length : ℚ) / (w.sample_rate : ℚ) ∧
          3 < now - w.last_transcript_time)) →
      model (whisperNormalize (w.audio_buffer ++ chunk)) w.language
          (w.compute_type == "float16") = Except.ok raw →
      pyStrip raw = "" →
      WhisperRecognizer.process_audio model w chunk now =
        ({ text := "", is_final := true, confidence := 0 },
         { w with audio_buffer := w.audio_buffer ++ chunk })) ∧
    ((1 ≤ ((w.audio_buffer ++ chunk).length : ℚ) / (w.sample_rate : ℚ) ∨
        (1/5 < ((w.audio_buffer ++ chunk).length : ℚ) / (w.sample_rate : ℚ) ∧
          3 < now - w.last_transcript_time)) →
      model (whisperNormalize (w.audio_buffer ++ chunk)) w.language
          (w.compute_type == "float16") = Except.error () →
      WhisperRecognizer.process_audio model w chunk now =
        ({ text := "", is_final := true, confidence := 0 },
         { w with audio_buffer := w.audio_buffer ++ chunk })) ∧
    ((WhisperRecognizer.process_audio model w chunk now).1.is_final = true) := by
  have hav : ¬ (w.is_available = false) := by
    simp [WhisperRecognizer.is_available, hm]
  refine ⟨?_, ?_, ?_, ?_, ?_⟩
  · intro hno
    unfold WhisperRecognizer.process_audio
    rw [if_neg hav]
    dsimp only
    rw [if_neg hno]
  · intro raw htr hmod hne
    unfold WhisperRecognizer.process_audio WhisperRecognizer.mapLanguageCode
    rw [if_neg hav]
    dsimp only
    rw [if_pos htr, hmod]
    dsimp only
    rw [if_pos hne]
  · intro raw htr hmod hblank
    unfold WhisperRecognizer.process_audio WhisperRecognizer.mapLanguageCode
    rw [if_neg hav]
    dsimp only
    rw [if_pos htr, hmod]
    dsimp only
    rw [if_neg (by simp [hblank])]
  · intro htr hmod
    unfold WhisperRecognizer.process_audio WhisperRecognizer.mapLanguageCode
    rw [if_neg hav]
    dsimp only
    rw [if_pos htr, hmod]
  · unfold WhisperRecognizer.process_audio WhisperRecognizer.mapLanguageCode
    rw [if_neg hav]
    dsimp only
    by_cases htr : (1 ≤ ((w.audio_buffer ++ chunk).length : ℚ) / (w.sample_rate : ℚ) ∨
        (1/5 < ((w.audio_buffer ++ chunk).length : ℚ) / (w.sample_rate : ℚ) ∧
          3 < now - w.last_transcript_time))
    · rw [if_pos htr]
      rcases hmod : model (whisperNormalize (w.audio_buffer ++ chunk)) w.language
          (w.compute_type == "float16") with e | raw
      · rfl
      · dsimp only
        split <;> rfl
    · rw [if_neg htr]

theorem c2_witness :
    (w2cx.model_loaded = true) ∧
    (((¬ (1 ≤ ((w2cx.audio_buffer ++ [0, 0, 0, 0, 0]).length : ℚ) / (w2cx.sample_rate : ℚ) ∨
        (1/5 < ((w2cx.audio_buffer ++ [0, 0, 0, 0, 0]).length : ℚ) / (w2cx.sample_rate : ℚ) ∧
          3 < (10 : ℚ) - w2cx.last_transcript_time))) →
      WhisperRecognizer.process_audio modelHello w2cx [0, 0, 0, 0, 0] 10 =
        ({ text := "", is_final := true, confidence := 0 },
         { w2cx with audio_buffer := w2cx.audio_buffer ++ [0, 0, 0, 0, 0] })) ∧
    (∀ raw, (1 ≤ ((w2cx.audio_buffer ++ [0, 0, 0, 0, 0]).length : ℚ) / (w2cx.sample_rate : ℚ) ∨
        (1/5 < ((w2cx.audio_buffer ++ [0, 0, 0, 0, 0]).length : ℚ) / (w2cx.sample_rate : ℚ) ∧
          3 < (10 : ℚ) - w2cx.last_transcript_time)) →
      modelHello (whisperNormalize (w2cx.audio_buffer ++ [0, 0, 0, 0, 0])) w2cx.language
          (w2cx.compute_type == "float16") = Except.ok raw →
      pyStrip raw ≠ "" →
      WhisperRecognizer.process_audio modelHello w2cx [0, 0, 0, 0, 0] 10 =
        ({ text := pyStrip raw, is_final := true, confidence := 0 },
         { w2cx with audio_buffer := [], last_transcript_time := 10 })) ∧
    (∀ raw, (1 ≤ ((w2cx.audio_buffer ++ [0, 0, 0, 0, 0]).length : ℚ) / (w2cx.sample_rate : ℚ) ∨
        (1/5 < ((w2cx.audio_buffer ++ [0, 0, 0, 0, 0]).length : ℚ) / (w2cx.sample_rate : ℚ) ∧
          3 < (10 : ℚ) - w2cx.last_transcript_time)) →
      modelHello (whisperNormalize (w2cx.audio_buffer ++ [0, 0, 0, 0, 0])) w2cx.language
          (w2cx.compute_type == "float16") = Except.ok raw →
      pyStrip raw = "" →
      WhisperRecognizer.process_audio modelHello w2cx [0, 0, 0, 0, 0] 10 =
        ({ text := "", is_final := true, confidence := 0 },
         { w2cx with audio_buffer := w2cx.audio_buffer ++ [0, 0, 0, 0, 0] })) ∧
    ((1 ≤ ((w2cx.audio_buffer ++ [0, 0, 0, 0, 0]).length : ℚ) / (w2cx.sample_rate : ℚ) ∨
        (1/5 < ((w2cx.audio_buffer ++ [0, 0, 0, 0, 0]).length : ℚ) / (w2cx.sample_rate : ℚ) ∧
          3 < (10 : ℚ) - w2cx.last_transcript_time)) →
      modelHello (whisperNormalize (w2cx.audio_buffer ++ [0, 0, 0, 0, 0])) w2cx.language
          (w2cx.compute_type == "float16") = Except.error () →
      WhisperRecognizer.process_audio modelHello w2cx [0, 0, 0, 0, 0] 10 =
        ({ text := "", is_final := true, confidence := 0 },
         { w2cx with audio_buffer := w2cx.audio_buffer ++ [0, 0, 0, 0, 0] })) ∧
    ((WhisperRecognizer.process_audio modelHello w2cx [0, 0, 0, 0, 0] 10).1.is_final = true)) :=
  ⟨rfl, c2_amended modelHello w2cx [0, 0, 0, 0, 0] 10 rfl⟩

/-! ## Vosk and SpeechRecognition back-ends, and C8

`VoskRecognizer.process_audio` (vosk_recognizer.py lines 84-136) wraps its
whole body in `try/except`.  Its engine interaction is abstracted into
three `Except`-valued oracles: `acceptWaveform` is
`self.recognizer.AcceptWaveform(audio)` (the byte normalization
`_ensure_int16` catches internally and cannot raise); `finalResult` is
`json.loads(self.recognizer.Result())`, giving the optional `text` field
and optional `confidence` field; `interimResult` is
`json.loads(self.recognizer.PartialResult())`, giving the optional
`partial` field.  `Except.error` at any stage models a raised exception;
the `except` clause returns the result dictionary as initialized, since
the code only mutates it after the last fallible call of a branch. -/

structure VoskEngine where
  acceptWaveform : Except Unit Bool
  finalResult : Except Unit (Option String × Option ℚ)
  interimResult : Except Unit (Option String)

/-- `VoskRecognizer.process_audio` (vosk_recognizer.py lines 84-136):
`available` is `is_available()` (`VOSK_AVAILABLE and self.recognizer is
not None`), `interimResults` is `self.partial_results`. -/
def voskProcessAudio (available : Bool) (interimResults : Bool)
    (eng : VoskEngine) : RecogResult :=
  if available = false then { text := "", is_final := true, confidence := 0 }
  else
    match eng.acceptWaveform with
    | Except.error _ => { text := "", is_final := false, confidence := 0 }
    | Except.ok true =>
      match eng.finalResult with
      | Except.error _ => { text := "", is_final := false, confidence := 0 }
      | Except.ok (t?, c?) =>
        match t? with
        | some t =>
          if pyStrip t ≠ "" then
            { text := t, is_final := true, confidence := c?.getD 0 }
          else { text := "", is_final := false, confidence := 0 }
        | none => { text := "", is_final := false, confidence := 0 }
    | Except.ok false =>
      if interimResults then
        match eng.interimResult with
        | Except.error _ => { text := "", is_final := false, confidence := 0 }
        | Except.ok (some p) =>
          if pyStrip p ≠ "" then { text := p, is_final := false, confidence := 0 }
          else { text := "", is_final := false, confidence := 0 }
        | Except.ok none => { text := "", is_final := false, confidence := 0 }
      else { text := "", is_final := false, confidence := 0 }

/-- The possible outcomes of the cloud call in
`SpeechRecognitionRecognizer.process_audio` (sr_recognizer.py lines
47-99): a recognized text, `sr.UnknownValueError`, `sr.RequestError`, or
any other exception (each caught by its own `except` clause). -/
inductive SrOutcome where
  | recognized (text : String)
  | unknownValue
  | requestError
  | failure
deriving DecidableEq

/-- `SpeechRecognitionRecognizer.process_audio` (sr_recognizer.py lines
47-99): `available` is `is_available()`. -/
def srProcessAudio (available : Bool) (outcome : SrOutcome) : RecogResult :=
  if available = false then { text := "", is_final := true, confidence := 0 }
  else
    match outcome with
    | SrOutcome.recognized t =>
      if t ≠ "" then { text := t, is_final := true, confidence := 1 }
      else { text := "", is_final := true, confidence := 0 }
    | _ => { text := "", is_final := true, confidence := 0 }

/-- C8: each back-end `process_audio` is a total function of its input and
its engine outcome — every engine exception is caught — and whenever the
engine interaction raises at the stage it has reached, or the engine is
unavailable, the returned result dictionary has empty text, so the
dispatcher loop never sees an exception from a recognizer. -/
theorem c8_recognizers_never_raise (pr avail : Bool)
    (fr : Except Unit (Option String × Option ℚ))
    (ir : Except Unit (Option String))
    (eng : VoskEngine)
    (model : List ℚ → String → Bool → Except Unit String)
    (w : WhisperRecognizer) (chunk : List ℚ) (now : ℚ) (sout : SrOutcome) :
    (voskProcessAudio false pr eng).text = "" ∧
    (voskProcessAudio avail pr ⟨Except.error (), fr, ir⟩).text = "" ∧
    (voskProcessAudio avail pr ⟨Except.ok true, Except.error (), ir⟩).text = "" ∧
    (voskProcessAudio avail pr ⟨Except.ok false, fr, Except.error ()⟩).text = "" ∧
    ((WhisperRecognizer.process_audio (fun _ _ _ => Except.error ()) w chunk now).1).text = "" ∧
    ((WhisperRecognizer.process_audio model
        { w with model_loaded := false } chunk now).1).text = "" ∧
    (srProcessAudio avail SrOutcome.unknownValue).text = "" ∧
    (srProcessAudio avail SrOutcome.requestError).text = "" ∧
    (srProcessAudio avail SrOutcome.failure).text = "" ∧
    (srProcessAudio false sout).text = "" := by
  refine ⟨rfl, ?_, ?_, ?_, ?_, rfl, ?_, ?_, ?_, rfl⟩
  · cases avail <;> rfl
  · cases avail <;> rfl
  · cases avail <;> cases pr <;> rfl
  · unfold WhisperRecognizer.process_audio
    by_cases hav : w.is_available = false
    · rw [if_pos hav]
    · rw [if_neg hav]
      dsimp only
      split
      · rfl
      · rfl
  · cases avail <;> rfl
  · cases avail <;> rfl
  · cases avail <;> rfl

end ML101
